import Mathlib

/-!
Verification of the hello-triangle Vulkan bring-up program: a shallow
embedding of its capability-query helpers (vulkanutils.h), its swapchain
selection policies, its device-suitability check, and its frame scheduler
(drawFrame), with theorems settling the specified properties.

Machine integers (uint32_t, size_t) are modelled as Nat; the single place
where overflow could matter (minImageCount + 1 in createSwapchain) carries
an explicit % 2^32.
-/

/-! ## Constants from the source -/

/-- WIDTH constant from 1.hello-triangle.cpp. -/
def WIDTH : Nat := 800

/-- HEIGHT constant from 1.hello-triangle.cpp. -/
def HEIGHT : Nat := 600

/-- MAX_FRAMES_IN_FLIGHT constant from 1.hello-triangle.cpp. -/
def MAX_FRAMES_IN_FLIGHT : Nat := 2

/-- UINT32_MAX, the sentinel width used by pickSwapchainExtent. -/
def UINT32_MAX : Nat := 4294967295

/-- Vulkan enum value VK_FORMAT_B8G8R8A8_SRGB. -/
def VK_FORMAT_B8G8R8A8_SRGB : Nat := 50

/-- Vulkan enum value VK_COLOR_SPACE_SRGB_NONLINEAR_KHR. -/
def VK_COLOR_SPACE_SRGB_NONLINEAR_KHR : Nat := 0

/-- Vulkan flag bit VK_QUEUE_GRAPHICS_BIT. -/
def VK_QUEUE_GRAPHICS_BIT : Nat := 1

/-! ## Capability query layer (vulkanutils.h) -/

/-- The extensionName field of VkExtensionProperties. -/
structure VkExtensionProperties where
  extensionName : String
  deriving DecidableEq

/-- The layerName field of VkLayerProperties. -/
structure VkLayerProperties where
  layerName : String
  deriving DecidableEq

/-- getUnsupportedExtensions from vulkanutils.h: for each required name, scan
the available list with strcmp (exact, case-sensitive) and push the name onto
the result when no entry matches. -/
def getUnsupportedExtensions (availableExtensions : List VkExtensionProperties)
    (requiredExtensions : List String) : List String :=
  requiredExtensions.foldl
    (fun unsupportedExtensions reqExtensionName =>
      let found := availableExtensions.any
        (fun av => av.extensionName == reqExtensionName)
      if found then unsupportedExtensions
      else unsupportedExtensions ++ [reqExtensionName])
    []

/-- getUnsupportedLayers from vulkanutils.h: same scan as
getUnsupportedExtensions, over layerName. -/
def getUnsupportedLayers (availableLayers : List VkLayerProperties)
    (requiredLayers : List String) : List String :=
  requiredLayers.foldl
    (fun unsupportedLayers reqLayerName =>
      let found := availableLayers.any
        (fun av => av.layerName == reqLayerName)
      if found then unsupportedLayers
      else unsupportedLayers ++ [reqLayerName])
    []

/-- getRequiredPhysicalDeviceExtensions from vulkanutils.h:
VK_KHR_SWAPCHAIN_EXTENSION_NAME. -/
def getRequiredPhysicalDeviceExtensions : List String := ["VK_KHR_swapchain"]

/-- ASCII lowercasing of a character code, for the spec-side case-insensitive
comparison. -/
def asciiLowerCode (c : Char) : Nat :=
  if 65 ≤ c.toNat ∧ c.toNat ≤ 90 then c.toNat + 32 else c.toNat

/-- Modelled from the spec: the case-insensitive matching the spec's diffing
query describes ("no case-insensitive-exact name match"); the source itself
compares with strcmp. Kept separate so the source function can be compared
against the spec's words. -/
def caseInsensitiveMatch (a b : String) : Bool :=
  a.data.map asciiLowerCode == b.data.map asciiLowerCode

/-- The diffing query as the spec's words describe it (case-insensitive
matching), for comparison with the source's getUnsupportedExtensions. -/
def unsupportedExtensionsSpecCI (availableExtensions : List VkExtensionProperties)
    (requiredExtensions : List String) : List String :=
  requiredExtensions.filter
    (fun r => !(availableExtensions.any (fun av => caseInsensitiveMatch av.extensionName r)))

/-! ## Swapchain selection policies (1.hello-triangle.cpp) -/

/-- VkSurfaceFormatKHR: format and colorSpace enum values. -/
structure VkSurfaceFormatKHR where
  format : Nat
  colorSpace : Nat
  deriving DecidableEq

/-- VkExtent2D with uint32 fields. -/
structure VkExtent2D where
  width : Nat
  height : Nat
  deriving DecidableEq

/-- The fields of VkSurfaceCapabilitiesKHR the program reads. -/
structure VkSurfaceCapabilitiesKHR where
  minImageCount : Nat
  maxImageCount : Nat
  currentExtent : VkExtent2D
  minImageExtent : VkExtent2D
  maxImageExtent : VkExtent2D
  deriving DecidableEq

/-- pickSwapchainSurfaceFormat: the loop returns the first entry with
B8G8R8A8_SRGB format and SRGB_NONLINEAR color space; the fallback returns
availableFormats[0] (none when the list is empty, where the source would
index out of bounds). -/
def pickSwapchainSurfaceFormat (availableFormats : List VkSurfaceFormatKHR) :
    Option VkSurfaceFormatKHR :=
  match availableFormats.find?
      (fun surfaceFormat =>
        surfaceFormat.format == VK_FORMAT_B8G8R8A8_SRGB &&
        surfaceFormat.colorSpace == VK_COLOR_SPACE_SRGB_NONLINEAR_KHR) with
  | some surfaceFormat => some surfaceFormat
  | none => availableFormats.head?

/-- The property pickSwapchainSurfaceFormat prefers: 8-bit BGRA format paired
with the SRGB non-linear color space. -/
def isOptimalSurfaceFormat (sf : VkSurfaceFormatKHR) : Prop :=
  sf.format = VK_FORMAT_B8G8R8A8_SRGB ∧ sf.colorSpace = VK_COLOR_SPACE_SRGB_NONLINEAR_KHR

instance (sf : VkSurfaceFormatKHR) : Decidable (isOptimalSurfaceFormat sf) :=
  inferInstanceAs (Decidable (_ ∧ _))

/-- glm::clamp for unsigned integers: min(max(x, minVal), maxVal). -/
def glm_clamp (x minVal maxVal : Nat) : Nat := min (max x minVal) maxVal

/-- pickSwapchainExtent: when the surface reports the UINT32_MAX sentinel
width, clamp the configured WIDTH/HEIGHT into [minImageExtent, maxImageExtent]
per dimension; otherwise return currentExtent verbatim. -/
def pickSwapchainExtent (surfaceCapabilities : VkSurfaceCapabilitiesKHR) : VkExtent2D :=
  if surfaceCapabilities.currentExtent.width == UINT32_MAX then
    { width := glm_clamp WIDTH surfaceCapabilities.minImageExtent.width
        surfaceCapabilities.maxImageExtent.width
    , height := glm_clamp HEIGHT surfaceCapabilities.minImageExtent.height
        surfaceCapabilities.maxImageExtent.height }
  else
    surfaceCapabilities.currentExtent

/-- The imageCount computation at the top of createSwapchain:
minImageCount + 1 (uint32 arithmetic), then glm::min with maxImageCount
when maxImageCount > 0 (0 is the "unbounded" sentinel). -/
def createSwapchain_imageCount (capabilities : VkSurfaceCapabilitiesKHR) : Nat :=
  let imageCount := (capabilities.minImageCount + 1) % 2 ^ 32
  if capabilities.maxImageCount > 0 then
    min imageCount capabilities.maxImageCount
  else
    imageCount

/-! ## Helper lemmas -/

theorem foldl_push_eq_filter {α : Type} (p : α → Bool) :
    ∀ (l : List α) (acc : List α),
      l.foldl (fun acc x => if p x then acc else acc ++ [x]) acc =
        acc ++ l.filter (fun x => !p x)
  | [], acc => by simp
  | x :: l, acc => by
    cases hx : p x with
    | true => simp [List.foldl_cons, hx, foldl_push_eq_filter p l acc]
    | false => simp [List.foldl_cons, hx, foldl_push_eq_filter p l (acc ++ [x])]

theorem getUnsupportedExtensions_eq_filter (availableExtensions : List VkExtensionProperties)
    (requiredExtensions : List String) :
    getUnsupportedExtensions availableExtensions requiredExtensions =
      requiredExtensions.filter
        (fun r => !(availableExtensions.any (fun av => av.extensionName == r))) := by
  unfold getUnsupportedExtensions
  simpa using foldl_push_eq_filter
    (fun r => availableExtensions.any (fun av => av.extensionName == r)) requiredExtensions []

theorem getUnsupportedLayers_eq_filter (availableLayers : List VkLayerProperties)
    (requiredLayers : List String) :
    getUnsupportedLayers availableLayers requiredLayers =
      requiredLayers.filter
        (fun r => !(availableLayers.any (fun av => av.layerName == r))) := by
  unfold getUnsupportedLayers
  simpa using foldl_push_eq_filter
    (fun r => availableLayers.any (fun av => av.layerName == r)) requiredLayers []

/-! ## C5 / C6 theorems -/

/-- C5: getUnsupportedExtensions (and getUnsupportedLayers) returns the empty
sequence iff every required name has a case-sensitive exact match in the
available sequence, and re-running on the same inputs yields the same
result. -/
theorem unsupported_empty_iff_all_matched :
    (∀ (av : List VkExtensionProperties) (req : List String),
        getUnsupportedExtensions av req = [] ↔
          ∀ r ∈ req, ∃ a ∈ av, a.extensionName = r)
  ∧ (∀ (av : List VkLayerProperties) (req : List String),
        getUnsupportedLayers av req = [] ↔
          ∀ r ∈ req, ∃ a ∈ av, a.layerName = r)
  ∧ (∀ (av : List VkExtensionProperties) (req : List String),
        getUnsupportedExtensions av req = getUnsupportedExtensions av req)
  ∧ (∀ (av : List VkLayerProperties) (req : List String),
        getUnsupportedLayers av req = getUnsupportedLayers av req) := by
  refine ⟨?_, ?_, fun _ _ => rfl, fun _ _ => rfl⟩
  · intro av req
    rw [getUnsupportedExtensions_eq_filter, List.filter_eq_nil_iff]
    constructor
    · intro h r hr
      have := h r hr
      simp only [Bool.not_eq_true', Bool.not_eq_false, List.any_eq_true, beq_iff_eq] at this
      exact this
    · intro h r hr
      have := h r hr
      simp only [Bool.not_eq_true', Bool.not_eq_false, List.any_eq_true, beq_iff_eq]
      exact this
  · intro av req
    rw [getUnsupportedLayers_eq_filter, List.filter_eq_nil_iff]
    constructor
    · intro h r hr
      have := h r hr
      simp only [Bool.not_eq_true', Bool.not_eq_false, List.any_eq_true, beq_iff_eq] at this
      exact this
    · intro h r hr
      have := h r hr
      simp only [Bool.not_eq_true', Bool.not_eq_false, List.any_eq_true, beq_iff_eq]
      exact this

/-- C6 counterexample: the source's matching is case-sensitive (strcmp), so on
an available list holding only a lowercased name the result differs from the
spec's case-insensitive diff: the required name is reported unsupported even
though it matches case-insensitively. -/
theorem getUnsupportedExtensions_not_case_insensitive :
    getUnsupportedExtensions [{ extensionName := "vk_khr_surface" }] ["VK_KHR_surface"]
        = ["VK_KHR_surface"]
    ∧ unsupportedExtensionsSpecCI [{ extensionName := "vk_khr_surface" }] ["VK_KHR_surface"]
        = []
    ∧ caseInsensitiveMatch "vk_khr_surface" "VK_KHR_surface" = true := by
  refine ⟨by decide, by decide, by decide⟩

/-- C6 amended: getUnsupportedExtensions (and getUnsupportedLayers) returns
exactly the required entries with no case-SENSITIVE exact name match in the
available sequence, in the relative order of the required sequence. -/
theorem unsupported_is_ordered_case_sensitive_diff :
    (∀ (av : List VkExtensionProperties) (req : List String),
        getUnsupportedExtensions av req =
          req.filter (fun r => decide (∀ a ∈ av, a.extensionName ≠ r)))
  ∧ (∀ (av : List VkLayerProperties) (req : List String),
        getUnsupportedLayers av req =
          req.filter (fun r => decide (∀ a ∈ av, a.layerName ≠ r))) := by
  constructor
  · intro av req
    rw [getUnsupportedExtensions_eq_filter]
    apply List.filter_congr
    intro r _
    by_cases h : ∀ a ∈ av, a.extensionName ≠ r
    · have h1 : (av.any fun a => a.extensionName == r) = false :=
        List.any_eq_false.mpr (fun a ha => by simpa using h a ha)
      rw [h1, decide_eq_true h]; rfl
    · have h2 : (av.any fun a => a.extensionName == r) = true := by
        push_neg at h
        obtain ⟨a, ha, hf⟩ := h
        exact List.any_eq_true.mpr ⟨a, ha, by simpa using hf⟩
      rw [h2, decide_eq_false h]; rfl
  · intro av req
    rw [getUnsupportedLayers_eq_filter]
    apply List.filter_congr
    intro r _
    by_cases h : ∀ a ∈ av, a.layerName ≠ r
    · have h1 : (av.any fun a => a.layerName == r) = false :=
        List.any_eq_false.mpr (fun a ha => by simpa using h a ha)
      rw [h1, decide_eq_true h]; rfl
    · have h2 : (av.any fun a => a.layerName == r) = true := by
        push_neg at h
        obtain ⟨a, ha, hf⟩ := h
        exact List.any_eq_true.mpr ⟨a, ha, by simpa using hf⟩
      rw [h2, decide_eq_false h]; rfl

/-! ## C7: surface-format selection -/

theorem pickSwapchainSurfaceFormat_isSome (availableFormats : List VkSurfaceFormatKHR)
    (hne : availableFormats ≠ []) :
    (pickSwapchainSurfaceFormat availableFormats).isSome = true := by
  unfold pickSwapchainSurfaceFormat
  cases hf : availableFormats.find?
      (fun surfaceFormat =>
        surfaceFormat.format == VK_FORMAT_B8G8R8A8_SRGB &&
        surfaceFormat.colorSpace == VK_COLOR_SPACE_SRGB_NONLINEAR_KHR) with
  | some sf => rfl
  | none =>
    cases availableFormats with
    | nil => exact absurd rfl hne
    | cons a l => rfl

/-- C7: on a non-empty format list, the selection returns an 8-bit BGRA
SRGB-nonlinear entry whenever one is present at any position, and the first
entry of the list when none is present. -/
theorem pickSwapchainSurfaceFormat_spec (availableFormats : List VkSurfaceFormatKHR)
    (hne : availableFormats ≠ []) :
    ((∃ sf ∈ availableFormats, isOptimalSurfaceFormat sf) →
        ∃ sf, pickSwapchainSurfaceFormat availableFormats = some sf ∧ isOptimalSurfaceFormat sf)
  ∧ ((∀ sf ∈ availableFormats, ¬ isOptimalSurfaceFormat sf) →
        pickSwapchainSurfaceFormat availableFormats = some (availableFormats.head hne)) := by
  constructor
  · intro hex
    cases hf : availableFormats.find?
        (fun surfaceFormat =>
          surfaceFormat.format == VK_FORMAT_B8G8R8A8_SRGB &&
          surfaceFormat.colorSpace == VK_COLOR_SPACE_SRGB_NONLINEAR_KHR) with
    | some sf =>
      refine ⟨sf, ?_, ?_⟩
      · unfold pickSwapchainSurfaceFormat
        rw [hf]
      · have := List.find?_some hf
        simp only [Bool.and_eq_true, beq_iff_eq] at this
        exact this
    | none =>
      exfalso
      obtain ⟨sf, hmem, hopt⟩ := hex
      have := List.find?_eq_none.mp hf sf hmem
      simp only [Bool.and_eq_true, beq_iff_eq] at this
      exact this ⟨hopt.1, hopt.2⟩
  · intro hnone
    unfold pickSwapchainSurfaceFormat
    have hf : availableFormats.find?
        (fun surfaceFormat =>
          surfaceFormat.format == VK_FORMAT_B8G8R8A8_SRGB &&
          surfaceFormat.colorSpace == VK_COLOR_SPACE_SRGB_NONLINEAR_KHR) = none := by
      rw [List.find?_eq_none]
      intro sf hmem
      have := hnone sf hmem
      simp only [isOptimalSurfaceFormat, not_and] at this
      simp only [Bool.and_eq_true, beq_iff_eq, not_and]
      exact this
    rw [hf]
    exact List.head?_eq_head hne

/-- C7 witness: a list whose optimal entry sits at position 1 is non-empty and
the optimal entry is selected. -/
theorem pickSwapchainSurfaceFormat_spec_witness :
    ∃ sf, pickSwapchainSurfaceFormat
        [{ format := 44, colorSpace := 0 }, { format := 50, colorSpace := 0 }] = some sf
      ∧ isOptimalSurfaceFormat sf :=
  (pickSwapchainSurfaceFormat_spec
      [{ format := 44, colorSpace := 0 }, { format := 50, colorSpace := 0 }]
      (by decide)).1
    ⟨{ format := 50, colorSpace := 0 }, by decide, by decide⟩

/-! ## C8: extent selection -/

/-- C8: the surface-reported current extent is returned verbatim when its
width is not the UINT32_MAX sentinel; with the sentinel, each dimension of the
configured 800x600 window size is clamped into
[minImageExtent, maxImageExtent]; a configured size already inside the bounds
is returned unchanged, and one beyond maxImageExtent is cut to the bound. -/
theorem pickSwapchainExtent_spec (caps : VkSurfaceCapabilitiesKHR) :
    (caps.currentExtent.width ≠ UINT32_MAX →
        pickSwapchainExtent caps = caps.currentExtent)
  ∧ (caps.currentExtent.width = UINT32_MAX →
        pickSwapchainExtent caps =
          { width := glm_clamp WIDTH caps.minImageExtent.width caps.maxImageExtent.width
          , height := glm_clamp HEIGHT caps.minImageExtent.height caps.maxImageExtent.height })
  ∧ (caps.currentExtent.width = UINT32_MAX →
      caps.minImageExtent.width ≤ WIDTH → WIDTH ≤ caps.maxImageExtent.width →
      caps.minImageExtent.height ≤ HEIGHT → HEIGHT ≤ caps.maxImageExtent.height →
        pickSwapchainExtent caps = { width := WIDTH, height := HEIGHT })
  ∧ (caps.currentExtent.width = UINT32_MAX →
      caps.maxImageExtent.width < WIDTH →
        (pickSwapchainExtent caps).width = caps.maxImageExtent.width)
  ∧ (caps.currentExtent.width = UINT32_MAX →
      WIDTH < caps.minImageExtent.width →
      caps.minImageExtent.width ≤ caps.maxImageExtent.width →
        (pickSwapchainExtent caps).width = caps.minImageExtent.width) := by
  refine ⟨?_, ?_, ?_, ?_, ?_⟩
  · intro h
    simp [pickSwapchainExtent, h]
  · intro h
    simp [pickSwapchainExtent, h]
  · intro h h1 h2 h3 h4
    simp only [pickSwapchainExtent, h, beq_self_eq_true, if_true]
    have hw : glm_clamp WIDTH caps.minImageExtent.width caps.maxImageExtent.width = WIDTH := by
      unfold glm_clamp; omega
    have hh : glm_clamp HEIGHT caps.minImageExtent.height caps.maxImageExtent.height = HEIGHT := by
      unfold glm_clamp; omega
    rw [hw, hh]
  · intro h h1
    simp only [pickSwapchainExtent, h, beq_self_eq_true, if_true]
    unfold glm_clamp
    omega
  · intro h h1 h2
    simp only [pickSwapchainExtent, h, beq_self_eq_true, if_true]
    unfold glm_clamp
    omega

/-! ## C9: image-count selection -/

/-- C9: the requested swapchain image count is minImageCount + 1, lowered to
maxImageCount when maxImageCount is non-zero and smaller; in particular
minImageCount=2 with unbounded maxImageCount=0 requests 3 images, and
minImageCount=2 with maxImageCount=2 requests 2. -/
theorem createSwapchain_imageCount_spec :
    (∀ caps : VkSurfaceCapabilitiesKHR,
        caps.minImageCount + 1 < 2 ^ 32 →
        createSwapchain_imageCount caps =
          if 0 < caps.maxImageCount ∧ caps.maxImageCount < caps.minImageCount + 1 then
            caps.maxImageCount
          else
            caps.minImageCount + 1)
  ∧ createSwapchain_imageCount
      { minImageCount := 2, maxImageCount := 0
      , currentExtent := { width := 0, height := 0 }
      , minImageExtent := { width := 0, height := 0 }
      , maxImageExtent := { width := 0, height := 0 } } = 3
  ∧ createSwapchain_imageCount
      { minImageCount := 2, maxImageCount := 2
      , currentExtent := { width := 0, height := 0 }
      , minImageExtent := { width := 0, height := 0 }
      , maxImageExtent := { width := 0, height := 0 } } = 2 := by
  refine ⟨?_, by decide, by decide⟩
  intro caps hov
  unfold createSwapchain_imageCount
  have hmod : (caps.minImageCount + 1) % 2 ^ 32 = caps.minImageCount + 1 :=
    Nat.mod_eq_of_lt hov
  simp only [hmod, Nat.min_def, gt_iff_lt]
  split_ifs with h1 h2 h3 <;> omega

/-! ## Frame scheduler: handles and per-frame objects (createSyncObjects,
createCommandBuffers) -/

/-- A semaphore handle: createSyncObjects creates one image-available and one
render-finished semaphore per Frame Slot. -/
inductive SemaphoreHandle
  | imageAvailable (slot : Nat)
  | renderFinished (slot : Nat)
  deriving DecidableEq

/-- A fence handle: createSyncObjects creates one in-flight fence per Frame
Slot. -/
inductive FenceHandle
  | inFlight (slot : Nat)
  deriving DecidableEq

/-- A command buffer handle: createCommandBuffers records one command buffer
per swapchain image. -/
inductive CommandBufferHandle
  | forImage (imageIndex : Nat)
  deriving DecidableEq

/-- The two queue handles retrieved by createLogicalDevice. -/
inductive QueueHandle
  | graphics
  | present
  deriving DecidableEq

/-- m_imageAvailableSemaphores: resized to MAX_FRAMES_IN_FLIGHT, entry i
created for slot i. -/
def m_imageAvailableSemaphores : List SemaphoreHandle :=
  (List.range MAX_FRAMES_IN_FLIGHT).map SemaphoreHandle.imageAvailable

/-- m_renderFinishedSemaphores: resized to MAX_FRAMES_IN_FLIGHT, entry i
created for slot i. -/
def m_renderFinishedSemaphores : List SemaphoreHandle :=
  (List.range MAX_FRAMES_IN_FLIGHT).map SemaphoreHandle.renderFinished

/-- m_inFlightFences: resized to MAX_FRAMES_IN_FLIGHT, entry i created for
slot i. -/
def m_inFlightFences : List FenceHandle :=
  (List.range MAX_FRAMES_IN_FLIGHT).map FenceHandle.inFlight

/-- m_commandBuffers: one pre-recorded command buffer per swapchain image
(K = swapchain image count). -/
def m_commandBuffers (K : Nat) : List CommandBufferHandle :=
  (List.range K).map CommandBufferHandle.forImage

/-- The pipeline stage passed in waitDstStageMask by drawFrame. -/
inductive VkPipelineStageFlag
  | colorAttachmentOutput
  | topOfPipe
  deriving DecidableEq

/-- The fields of VkSubmitInfo filled by drawFrame. -/
structure VkSubmitInfo where
  waitSemaphores : List SemaphoreHandle
  waitDstStageMask : List VkPipelineStageFlag
  commandBuffers : List CommandBufferHandle
  signalSemaphores : List SemaphoreHandle
  deriving DecidableEq

/-- The fields of VkPresentInfoKHR filled by drawFrame. -/
structure VkPresentInfoKHR where
  waitSemaphores : List SemaphoreHandle
  imageIndices : List Nat
  deriving DecidableEq

/-- One driver call issued by drawFrame, with the arguments the source passes. -/
inductive DriverCall
  | waitForFences (fences : List FenceHandle)
  | resetFences (fences : List FenceHandle)
  | acquireNextImage (semaphore : SemaphoreHandle)
  | queueSubmit (queue : QueueHandle) (submits : List VkSubmitInfo) (fence : FenceHandle)
  | queuePresent (queue : QueueHandle) (info : VkPresentInfoKHR)
  deriving DecidableEq

/-- Only vkWaitForFences blocks the CPU in the steady-state loop; acquire,
submit and present return without a host-side wait. -/
def isBlockingCall : DriverCall → Bool
  | DriverCall.waitForFences _ => true
  | _ => false

/-- The mutable state drawFrame touches: the m_currentFrame cursor (size_t). -/
structure DrawState where
  m_currentFrame : Nat
  deriving DecidableEq

/-- The advance step at the end of drawFrame:
m_currentFrame = (m_currentFrame + 1) % MAX_FRAMES_IN_FLIGHT. -/
def advanceCurrentFrame (m_currentFrame : Nat) : Nat :=
  (m_currentFrame + 1) % MAX_FRAMES_IN_FLIGHT

/-- drawFrame: the sequence of driver calls one iteration issues, in source
order, and the state after the iteration. The acquired image index is an
input (the result vkAcquireNextImageKHR wrote through its out-parameter);
K is the swapchain image count. Array accesses are modelled with getD; the
defaults are irrelevant for in-range indices. -/
def drawFrame (K : Nat) (s : DrawState) (imageIndex : Nat) :
    List DriverCall × DrawState :=
  let cf := s.m_currentFrame
  let fence := m_inFlightFences.getD cf (FenceHandle.inFlight 0)
  let imageAvailableSemaphore :=
    m_imageAvailableSemaphores.getD cf (SemaphoreHandle.imageAvailable 0)
  let renderFinishedSemaphore :=
    m_renderFinishedSemaphores.getD cf (SemaphoreHandle.renderFinished 0)
  let commandBuffer := (m_commandBuffers K).getD imageIndex (CommandBufferHandle.forImage 0)
  let submitInfo : VkSubmitInfo :=
    { waitSemaphores := [imageAvailableSemaphore]
    , waitDstStageMask := [VkPipelineStageFlag.colorAttachmentOutput]
    , commandBuffers := [commandBuffer]
    , signalSemaphores := [renderFinishedSemaphore] }
  let presentInfo : VkPresentInfoKHR :=
    { waitSemaphores := [renderFinishedSemaphore]
    , imageIndices := [imageIndex] }
  ( [ DriverCall.waitForFences [fence]
    , DriverCall.resetFences [fence]
    , DriverCall.acquireNextImage imageAvailableSemaphore
    , DriverCall.queueSubmit QueueHandle.graphics [submitInfo] fence
    , DriverCall.queuePresent QueueHandle.present presentInfo ]
  , { m_currentFrame := advanceCurrentFrame cf } )

theorem getD_range_map {α : Type} (f : Nat → α) {n i : Nat} (h : i < n) (d : α) :
    ((List.range n).map f).getD i d = f i := by
  rw [List.getD_eq_getElem?_getD, List.getElem?_map, List.getElem?_range h]
  rfl

/-! ## C1: the per-iteration protocol -/

/-- C1: one drawFrame iteration issues exactly: wait on the current slot's
in-flight fence then reset it; acquire with the slot's image-available
semaphore; submit the command buffer selected by the acquired image index,
waiting on the slot's image-available semaphore at the color-attachment-output
stage and signaling the slot's render-finished semaphore and in-flight fence;
present the acquired image index gated on the render-finished semaphore; and
the cursor advances to (currentFrame + 1) mod MAX_FRAMES_IN_FLIGHT. The
initial fence wait is the only CPU-blocking call of the iteration. -/
theorem drawFrame_protocol (K : Nat) (s : DrawState) (imageIndex : Nat)
    (hcf : s.m_currentFrame < MAX_FRAMES_IN_FLIGHT) (himg : imageIndex < K) :
    (drawFrame K s imageIndex).1 =
      [ DriverCall.waitForFences [FenceHandle.inFlight s.m_currentFrame]
      , DriverCall.resetFences [FenceHandle.inFlight s.m_currentFrame]
      , DriverCall.acquireNextImage (SemaphoreHandle.imageAvailable s.m_currentFrame)
      , DriverCall.queueSubmit QueueHandle.graphics
          [ { waitSemaphores := [SemaphoreHandle.imageAvailable s.m_currentFrame]
            , waitDstStageMask := [VkPipelineStageFlag.colorAttachmentOutput]
            , commandBuffers := [CommandBufferHandle.forImage imageIndex]
            , signalSemaphores := [SemaphoreHandle.renderFinished s.m_currentFrame] } ]
          (FenceHandle.inFlight s.m_currentFrame)
      , DriverCall.queuePresent QueueHandle.present
          { waitSemaphores := [SemaphoreHandle.renderFinished s.m_currentFrame]
          , imageIndices := [imageIndex] } ]
    ∧ (drawFrame K s imageIndex).1.filter isBlockingCall =
        [DriverCall.waitForFences [FenceHandle.inFlight s.m_currentFrame]]
    ∧ (drawFrame K s imageIndex).2.m_currentFrame =
        (s.m_currentFrame + 1) % MAX_FRAMES_IN_FLIGHT := by
  have hfence : m_inFlightFences.getD s.m_currentFrame (FenceHandle.inFlight 0) =
      FenceHandle.inFlight s.m_currentFrame :=
    getD_range_map FenceHandle.inFlight hcf _
  have hia : m_imageAvailableSemaphores.getD s.m_currentFrame (SemaphoreHandle.imageAvailable 0) =
      SemaphoreHandle.imageAvailable s.m_currentFrame :=
    getD_range_map SemaphoreHandle.imageAvailable hcf _
  have hrf : m_renderFinishedSemaphores.getD s.m_currentFrame (SemaphoreHandle.renderFinished 0) =
      SemaphoreHandle.renderFinished s.m_currentFrame :=
    getD_range_map SemaphoreHandle.renderFinished hcf _
  have hcb : (m_commandBuffers K).getD imageIndex (CommandBufferHandle.forImage 0) =
      CommandBufferHandle.forImage imageIndex :=
    getD_range_map CommandBufferHandle.forImage himg _
  refine ⟨?_, ?_, rfl⟩
  · simp only [drawFrame, hfence, hia, hrf, hcb]
  · simp only [drawFrame, hfence, hia, hrf, hcb, List.filter, isBlockingCall]

/-- C1 witness: at slot 0 with acquired image 1 in a 3-image swapchain, the
hypotheses hold and the cursor advances to 1. -/
theorem drawFrame_protocol_witness :
    0 < MAX_FRAMES_IN_FLIGHT ∧ 1 < 3 ∧
      (drawFrame 3 { m_currentFrame := 0 } 1).2.m_currentFrame = 1 :=
  ⟨by decide, by decide,
    ((drawFrame_protocol 3 { m_currentFrame := 0 } 1 (by decide) (by decide)).2.2).trans
      (by decide)⟩

/-! ## C4: the currentFrame cursor -/

/-- The cursor after t iterations of the main loop: m_currentFrame is
initialized to 0 and each drawFrame ends by advancing it. -/
def currentFrameAfter : Nat → Nat
  | 0 => 0
  | t + 1 => advanceCurrentFrame (currentFrameAfter t)

theorem currentFrameAfter_eq_mod (t : Nat) :
    currentFrameAfter t = t % MAX_FRAMES_IN_FLIGHT := by
  induction t with
  | zero => rfl
  | succ t ih =>
    show advanceCurrentFrame (currentFrameAfter t) = (t + 1) % MAX_FRAMES_IN_FLIGHT
    rw [ih]
    unfold advanceCurrentFrame MAX_FRAMES_IN_FLIGHT
    omega

/-- C4: the cursor starts at 0, each iteration advances it by exactly
(+1) mod MAX_FRAMES_IN_FLIGHT, it always lies in [0, MAX_FRAMES_IN_FLIGHT),
and it is periodic in the iteration count with period MAX_FRAMES_IN_FLIGHT. -/
theorem currentFrame_cursor_spec (t : Nat) :
    currentFrameAfter 0 = 0
  ∧ currentFrameAfter (t + 1) = (currentFrameAfter t + 1) % MAX_FRAMES_IN_FLIGHT
  ∧ currentFrameAfter t < MAX_FRAMES_IN_FLIGHT
  ∧ currentFrameAfter (t + MAX_FRAMES_IN_FLIGHT) = currentFrameAfter t := by
  refine ⟨rfl, rfl, ?_, ?_⟩
  · rw [currentFrameAfter_eq_mod]
    exact Nat.mod_lt _ (by decide)
  · rw [currentFrameAfter_eq_mod, currentFrameAfter_eq_mod, Nat.add_mod_right]

/-! ## C3: error handling in drawFrame (submit / present) -/

/-- VkResult codes as far as drawFrame distinguishes them: VK_SUCCESS against
any non-success code. -/
inductive VkResult
  | success
  | errorDeviceLost
  | errorOutOfDateKHR
  | suboptimalKHR
  deriving DecidableEq

/-- EXIT_SUCCESS returned by main on normal shutdown. -/
def EXIT_SUCCESS : Nat := 0

/-- EXIT_FAILURE returned by main when a propagated exception reaches its
try/catch. -/
def EXIT_FAILURE : Nat := 1

/-- The return codes the driver produces during one drawFrame iteration, in
call order. -/
structure DrawFrameDriverResults where
  waitFencesResult : VkResult
  acquireResult : VkResult
  submitResult : VkResult
  presentResult : VkResult
  deriving DecidableEq

/-- The error behaviour of drawFrame, read off the source: only the result of
vkQueueSubmit is compared against VK_SUCCESS (throwing a runtime_error); the
results of vkWaitForFences, vkAcquireNextImageKHR and vkQueuePresentKHR are
discarded without being examined. -/
def drawFrameResult (r : DrawFrameDriverResults) : Except String Unit :=
  if r.submitResult ≠ VkResult.success then
    Except.error "Failed to submit draw command buffer!"
  else
    Except.ok ()

/-- mainLoop neither catches nor handles exceptions from drawFrame. -/
def mainLoopResult (r : DrawFrameDriverResults) : Except String Unit :=
  drawFrameResult r

/-- run neither catches nor handles exceptions from mainLoop. -/
def runResult (r : DrawFrameDriverResults) : Except String Unit :=
  mainLoopResult r

/-- main: the top-level entry point catches every propagated exception, prints
it, and exits with EXIT_FAILURE; otherwise EXIT_SUCCESS. -/
def mainExitCode (r : DrawFrameDriverResults) : Nat :=
  match runResult r with
  | Except.error _ => EXIT_FAILURE
  | Except.ok _ => EXIT_SUCCESS

/-- C3 counterexample: a non-success return from vkQueuePresentKHR raises no
error at all — drawFrame completes normally and the process would exit with
success — contradicting the claim that every non-success code in the submit
and present steps raises a fatal error. -/
theorem drawFrame_present_error_ignored :
    VkResult.errorDeviceLost ≠ VkResult.success
  ∧ drawFrameResult
      { waitFencesResult := VkResult.success, acquireResult := VkResult.success
      , submitResult := VkResult.success, presentResult := VkResult.errorDeviceLost }
      = Except.ok ()
  ∧ mainExitCode
      { waitFencesResult := VkResult.success, acquireResult := VkResult.success
      , submitResult := VkResult.success, presentResult := VkResult.errorDeviceLost }
      = EXIT_SUCCESS := by
  refine ⟨by decide, rfl, rfl⟩

/-- C3 amended: a non-success return from vkQueueSubmit raises a fatal error
that propagates uncaught through drawFrame, mainLoop and run to the top-level
entry point, which exits with failure; the return code of vkQueuePresentKHR
(like those of vkWaitForFences and vkAcquireNextImageKHR) is never examined,
so a failed present raises no error and the frame is silently dropped with no
recovery or retry. -/
theorem drawFrame_error_handling (r : DrawFrameDriverResults) :
    (r.submitResult ≠ VkResult.success →
        drawFrameResult r = Except.error "Failed to submit draw command buffer!"
      ∧ runResult r = Except.error "Failed to submit draw command buffer!"
      ∧ mainExitCode r = EXIT_FAILURE)
  ∧ (r.submitResult = VkResult.success →
        drawFrameResult r = Except.ok ()
      ∧ mainExitCode r = EXIT_SUCCESS) := by
  constructor
  · intro h
    have hd : drawFrameResult r = Except.error "Failed to submit draw command buffer!" := by
      unfold drawFrameResult
      rw [if_pos h]
    refine ⟨hd, hd, ?_⟩
    unfold mainExitCode runResult mainLoopResult
    rw [hd]
  · intro h
    have hd : drawFrameResult r = Except.ok () := by
      unfold drawFrameResult
      rw [if_neg (by simp [h])]
    refine ⟨hd, ?_⟩
    unfold mainExitCode runResult mainLoopResult
    rw [hd]

/-! ## C10: device suitability and downstream totality -/

/-- One entry of getPhysicalDeviceQueueFamilyProperties together with the
hasSurfaceSupport answer for its index. -/
structure QueueFamilyInfo where
  queueFlags : Nat
  surfaceSupport : Bool
  deriving DecidableEq

/-- QueueFamilyIndices from queuefamilyindices.h. -/
structure QueueFamilyIndices where
  graphicsFamily : Option Nat
  presentFamily : Option Nat
  deriving DecidableEq

/-- QueueFamilyIndices::isComplete. -/
def QueueFamilyIndices.isComplete (q : QueueFamilyIndices) : Bool :=
  q.graphicsFamily.isSome && q.presentFamily.isSome

/-- A physical device as the suitability check observes it: the device
extension list, the surface format / present-mode lists of
querySwapChainSupport, and the queue families with their per-index surface
support. -/
structure PhysicalDeviceModel where
  availableExtensions : List VkExtensionProperties
  formats : List VkSurfaceFormatKHR
  presentModes : List Nat
  queueFamilies : List QueueFamilyInfo
  deriving DecidableEq

/-- The loop body of findQueueFamilies: set graphicsFamily on a graphics-bit
family, presentFamily on surface support, and break as soon as both are
filled. -/
def findQueueFamiliesLoop (families : List QueueFamilyInfo) (i : Nat)
    (indices : QueueFamilyIndices) : QueueFamilyIndices :=
  match families with
  | [] => indices
  | fam :: rest =>
    let indices1 :=
      if fam.queueFlags &&& VK_QUEUE_GRAPHICS_BIT ≠ 0 then
        { indices with graphicsFamily := some i }
      else indices
    let indices2 :=
      if fam.surfaceSupport then
        { indices1 with presentFamily := some i }
      else indices1
    if indices2.isComplete then indices2
    else findQueueFamiliesLoop rest (i + 1) indices2

/-- findQueueFamilies from 1.hello-triangle.cpp. -/
def findQueueFamilies (d : PhysicalDeviceModel) : QueueFamilyIndices :=
  findQueueFamiliesLoop d.queueFamilies 0 { graphicsFamily := none, presentFamily := none }

/-- checkPhysicalDeviceExtensionSupport from vulkanutils.h:
unsupportedExtensions.size() == 0. -/
def checkPhysicalDeviceExtensionSupport (d : PhysicalDeviceModel) : Bool :=
  (getUnsupportedExtensions d.availableExtensions getRequiredPhysicalDeviceExtensions).length == 0

/-- isPhysicalDeviceSuitable from 1.hello-triangle.cpp: required extensions,
then non-empty formats and present modes, then complete queue family
indices. -/
def isPhysicalDeviceSuitable (d : PhysicalDeviceModel) : Bool :=
  if !checkPhysicalDeviceExtensionSupport d then
    false
  else
    let swapchainAddecuate := !d.formats.isEmpty && !d.presentModes.isEmpty
    if !swapchainAddecuate then
      false
    else
      (findQueueFamilies d).isComplete

/-- C10: an accepted device has non-empty surface-format and present-mode
lists and both queue-family indices present; hence the availableFormats[0]
fallback of pickSwapchainSurfaceFormat is in bounds (the selection returns a
value) and the graphicsFamily.value() / presentFamily.value() accesses of
createLogicalDevice and createSwapchain are on non-empty optionals. -/
theorem isPhysicalDeviceSuitable_spec (d : PhysicalDeviceModel)
    (h : isPhysicalDeviceSuitable d = true) :
    d.formats ≠ []
  ∧ d.presentModes ≠ []
  ∧ (findQueueFamilies d).graphicsFamily.isSome = true
  ∧ (findQueueFamilies d).presentFamily.isSome = true
  ∧ (pickSwapchainSurfaceFormat d.formats).isSome = true := by
  unfold isPhysicalDeviceSuitable at h
  by_cases hext : checkPhysicalDeviceExtensionSupport d
  · rw [hext] at h
    simp only [Bool.not_true, Bool.false_eq_true, if_false] at h
    by_cases hforms : d.formats.isEmpty
    · rw [hforms] at h
      simp at h
    · by_cases hmodes : d.presentModes.isEmpty
      · rw [hmodes] at h
        simp at h
      · rw [Bool.eq_false_iff.mpr hforms, Bool.eq_false_iff.mpr hmodes] at h
        simp only [Bool.not_false, Bool.and_self, Bool.not_true, Bool.false_eq_true,
          if_false] at h
        have hcomplete := h
        unfold QueueFamilyIndices.isComplete at hcomplete
        rw [Bool.and_eq_true] at hcomplete
        have hfne : d.formats ≠ [] := by
          intro hnil
          rw [hnil] at hforms
          exact hforms rfl
        have hpne : d.presentModes ≠ [] := by
          intro hnil
          rw [hnil] at hmodes
          exact hmodes rfl
        exact ⟨hfne, hpne, hcomplete.1, hcomplete.2,
          pickSwapchainSurfaceFormat_isSome d.formats hfne⟩
  · rw [Bool.eq_false_iff.mpr hext] at h
    simp at h

/-- C10 witness: a concrete device (swapchain extension present, one format,
one present mode, one queue family with graphics and present support) is
suitable and the downstream accesses are defined. -/
theorem isPhysicalDeviceSuitable_spec_witness :
    isPhysicalDeviceSuitable
        { availableExtensions := [{ extensionName := "VK_KHR_swapchain" }]
        , formats := [{ format := 50, colorSpace := 0 }]
        , presentModes := [2]
        , queueFamilies := [{ queueFlags := 1, surfaceSupport := true }] } = true
  ∧ (pickSwapchainSurfaceFormat
        ({ availableExtensions := [{ extensionName := "VK_KHR_swapchain" }]
         , formats := [{ format := 50, colorSpace := 0 }]
         , presentModes := [2]
         , queueFamilies := [{ queueFlags := 1, surfaceSupport := true }]
         : PhysicalDeviceModel }).formats).isSome = true :=
  ⟨by decide,
    (isPhysicalDeviceSuitable_spec
      { availableExtensions := [{ extensionName := "VK_KHR_swapchain" }]
      , formats := [{ format := 50, colorSpace := 0 }]
      , presentModes := [2]
      , queueFamilies := [{ queueFlags := 1, surfaceSupport := true }] }
      (by decide)).2.2.2.2⟩

/-! ## C2: no premature reuse of a Frame Slot's synchronization objects

The acquire → submit → present loop interleaved with the asynchronous GPU /
presentation engine, modelled as a transition system. A drawFrame iteration
is one atomic CPU step (its only internal suspension point is the fence wait
at its start, so it is enabled exactly when the current slot's fence is
signaled); the GPU completing a submission and the presentation engine
releasing an image are independent steps. -/

/-- Pointwise update of a table, used for the per-slot and per-image state. -/
def setFn {α : Type} (g : Nat → α) (i : Nat) (v : α) : Nat → α :=
  fun j => if j = i then v else g j

/-- The scheduler state for N frame slots and K swapchain images:
the m_currentFrame cursor, the signaled state of each slot's in-flight fence,
the outstanding submission (by iteration number) each slot's fence/semaphores
are attached to, which images the application currently holds, and how many
iterations have begun. -/
structure SchedState (N K : Nat) where
  currentFrame : Nat
  fenceSignaled : Nat → Bool
  slotSubmission : Nat → Option Nat
  imageInFlight : Nat → Bool
  iteration : Nat

/-- The transitions: `draw` is one drawFrame iteration (enabled when the
current slot's fence is signaled — the vkWaitForFences throttle — and some
image is available to acquire; it resets the fence and attaches the slot's
fence and semaphores to a new submission, then advances the cursor).
`complete` is the GPU finishing an outstanding submission, signaling the
slot's fence and retiring its semaphore use. `release` is the presentation
engine handing an image back for acquisition. -/
inductive SchedStep (N K : Nat) : SchedState N K → SchedState N K → Prop
  | draw (s : SchedState N K) (imageIndex : Nat) :
      imageIndex < K →
      s.imageInFlight imageIndex = false →
      s.fenceSignaled s.currentFrame = true →
      SchedStep N K s
        { currentFrame := (s.currentFrame + 1) % N
        , fenceSignaled := setFn s.fenceSignaled s.currentFrame false
        , slotSubmission := setFn s.slotSubmission s.currentFrame (some s.iteration)
        , imageInFlight := setFn s.imageInFlight imageIndex true
        , iteration := s.iteration + 1 }
  | complete (s : SchedState N K) (f i : Nat) :
      s.slotSubmission f = some i →
      SchedStep N K s
        { s with fenceSignaled := setFn s.fenceSignaled f true
               , slotSubmission := setFn s.slotSubmission f none }
  | release (s : SchedState N K) (imageIndex : Nat) :
      s.imageInFlight imageIndex = true →
      SchedStep N K s
        { s with imageInFlight := setFn s.imageInFlight imageIndex false }

/-- The initial state: cursor 0, every fence created with
VK_FENCE_CREATE_SIGNALED_BIT, no outstanding submission, every image owned by
the presentation engine. -/
def initSchedState (N K : Nat) : SchedState N K :=
  { currentFrame := 0
  , fenceSignaled := fun _ => true
  , slotSubmission := fun _ => none
  , imageInFlight := fun _ => false
  , iteration := 0 }

/-- States the scheduler can reach from startup. -/
inductive SchedReachable (N K : Nat) : SchedState N K → Prop
  | init : SchedReachable N K (initSchedState N K)
  | step {s t : SchedState N K} :
      SchedReachable N K s → SchedStep N K s t → SchedReachable N K t

/-- Inductive invariant: a slot whose in-flight fence is signaled has no
outstanding submission attached to its fence/semaphores. -/
theorem fenceSignaled_no_pending {N K : Nat} {s : SchedState N K}
    (h : SchedReachable N K s) :
    ∀ f, s.fenceSignaled f = true → s.slotSubmission f = none := by
  induction h with
  | init => intro f _; rfl
  | @step u t hr hstep ih =>
    cases hstep with
    | draw imageIndex himg hfree hsig =>
      intro f hf
      simp only [setFn] at hf ⊢
      by_cases hfc : f = u.currentFrame
      · rw [if_pos hfc] at hf
        exact absurd hf (by decide)
      · rw [if_neg hfc] at hf ⊢
        exact ih f hf
    | complete g i hsub =>
      intro f hf
      simp only [setFn] at hf ⊢
      by_cases hfg : f = g
      · rw [if_pos hfg]
      · rw [if_neg hfg] at hf ⊢
        exact ih f hf
    | release imageIndex hheld =>
      intro f hf
      exact ih f hf

/-- C2: for N frames in flight and K swapchain images with N ≤ K, in every
reachable state of the loop, a step that attaches a Frame Slot's in-flight
fence and semaphores to a new submission finds no outstanding prior
submission on that slot: the prior submission that used them has already
signaled completion and been retired. -/
theorem no_premature_sync_reuse (N K : Nat) (hNK : N ≤ K)
    {s t : SchedState N K}
    (hreach : SchedReachable N K s) (hstep : SchedStep N K s t)
    (f i : Nat) (hattach : t.slotSubmission f = some i)
    (hnew : s.slotSubmission f ≠ some i) :
    s.slotSubmission f = none := by
  cases hstep with
  | draw imageIndex himg hfree hsig =>
    simp only [setFn] at hattach
    by_cases hfc : f = s.currentFrame
    · subst hfc
      exact fenceSignaled_no_pending hreach _ hsig
    · rw [if_neg hfc] at hattach
      exact absurd hattach hnew
  | complete g j hsub =>
    simp only [setFn] at hattach
    by_cases hfg : f = g
    · rw [if_pos hfg] at hattach
      exact Option.noConfusion hattach
    · rw [if_neg hfg] at hattach
      exact absurd hattach hnew
  | release imageIndex hheld =>
    exact absurd hattach hnew

/-- C2 witness: with N = 2 frames in flight and K = 3 swapchain images, the
first draw step from the initial state attaches slot 0's objects to
submission 0, and indeed no prior submission is outstanding there. -/
theorem no_premature_sync_reuse_witness :
    2 ≤ 3 ∧ (initSchedState 2 3).slotSubmission 0 = none :=
  ⟨by decide,
    no_premature_sync_reuse 2 3 (by decide)
      SchedReachable.init
      (SchedStep.draw (initSchedState 2 3) 0 (by decide) rfl rfl)
      0 0 rfl (by decide)⟩
